import Mathlib

/-!
Verification development for the GitHub activity report generator
(`github_report.py`).  The Python source is shallowly embedded below:

* timestamps: the source stores ISO-8601 UTC strings (`created_at`) and
  parses them with `datetime.strptime` before comparing or formatting.
  The spec guarantees every event timestamp is well-formed
  (`%Y-%m-%dT%H:%M:%SZ`, no fractional seconds), so events here carry the
  parsed value directly as a `DateTime` record; `strptime` is the identity
  of this embedding and Python's `datetime` comparison is the
  lexicographic comparison `DateTime.ltb`.
* JSON dictionaries become records; a key that the source reads with a
  bare subscript (`d['k']`, raising `KeyError` when absent) becomes an
  `Option` field read through `dictGet`, which produces
  `Except.error "KeyError: k"`; a key read with `d.get(k, default)`
  becomes a field carrying the default directly.
* the HTTP transport is a parameter `feed : page → per_page →
  Option (List Event)`: `none` models a failed request
  (`_make_request` returning `None`), `some l` a decoded JSON page.
* Python `set` becomes a duplicate-free `List String` built with
  `List.insert`; the only observations the source makes of the set are
  its size and its sorted elements, which agree with this model.
-/

namespace GithubReport

/-- Parsed `datetime` value (year, month, day, hour, minute, second),
corresponding to `datetime.strptime(s, '%Y-%m-%dT%H:%M:%SZ')`. -/
structure DateTime where
  year : Nat
  month : Nat
  day : Nat
  hour : Nat
  minute : Nat
  second : Nat
deriving DecidableEq

/-- Python `datetime` comparison `a < b`: lexicographic on
(year, month, day, hour, minute, second). -/
def DateTime.ltb (a b : DateTime) : Bool :=
  if a.year ≠ b.year then a.year < b.year
  else if a.month ≠ b.month then a.month < b.month
  else if a.day ≠ b.day then a.day < b.day
  else if a.hour ≠ b.hour then a.hour < b.hour
  else if a.minute ≠ b.minute then a.minute < b.minute
  else a.second < b.second

/-- One entry of a push payload's `commits` list (`commit['sha']`,
`commit['message']`, both read with bare subscripts). -/
structure Commit where
  sha : String
  message : String
deriving DecidableEq

/-- The `pull_request` descriptor of a PR / review payload.  `title` and
`number` are read with `.get(..., 'N/A')` in the source, `merged` with
`.get('merged')`; all three are optional. -/
structure PullRequestDesc where
  title : Option String
  number : Option Nat
  merged : Option Bool
deriving DecidableEq

/-- The `issue` descriptor of an issues payload; `title` and `number`
are read with `.get(..., 'N/A')`. -/
structure IssueDesc where
  title : Option String
  number : Option Nat
deriving DecidableEq

/-- An event's `payload` dictionary.  `commits` is read as
`payload.get('commits', [])`, so an absent key coincides with `[]` and
the field is total; `action`, `pull_request` and `issue` are read with
bare subscripts and are `Option`s. -/
structure Payload where
  commits : List Commit
  action : Option String
  pull_request : Option PullRequestDesc
  issue : Option IssueDesc
deriving DecidableEq

/-- The `repo` object of an event; `name` is read as `event['repo']['name']`. -/
structure Repo where
  name : Option String
deriving DecidableEq

/-- One event of the user's feed.  `type` and `repo` are read with bare
subscripts (`Option` fields); `created_at` is total per the data-model
invariant (see module comment). -/
structure Event where
  type : Option String
  repo : Option Repo
  created_at : DateTime
  payload : Payload
deriving DecidableEq

/-- Bare dictionary subscript `d[key]`: `KeyError` when the key is absent. -/
def dictGet (o : Option α) (key : String) : Except String α :=
  match o with
  | some v => Except.ok v
  | none => Except.error ("KeyError: " ++ key)

/-! ## Paginated event fetcher (`_filter_events_by_date`, `get_user_events`) -/

/-- `_filter_events_by_date`: scan a page's events in order; at the first
event strictly older than `since_date` stop and signal the caller to stop
fetching (`false`); otherwise append the event.  Returns the accepted
prefix together with the continue flag. -/
def filter_events_by_date (since_date : DateTime) : List Event → List Event × Bool
  | [] => ([], true)
  | e :: rest =>
    if DateTime.ltb e.created_at since_date then ([], false)
    else
      let r := filter_events_by_date since_date rest
      (e :: r.1, r.2)

/-- The paging loop of `get_user_events`: `page` is the next page number,
`fuel` the number of loop iterations left (`for page in range(1, 11)`
gives 10 iterations).  `feed page 100` models
`_make_request(f"users/{username}/events", {'page': page, 'per_page': 100})`:
`none` is a failed request, and `if not page_events` treats both `None`
and an empty page as end-of-stream. -/
def get_user_events_go (feed : Nat → Nat → Option (List Event))
    (since_date : DateTime) : Nat → Nat → List Event
  | _, 0 => []
  | page, fuel + 1 =>
    match feed page 100 with
    | none => []
    | some page_events =>
      if page_events.isEmpty then []
      else
        let r := filter_events_by_date since_date page_events
        r.1 ++ (if r.2 then get_user_events_go feed since_date (page + 1) fuel else [])

/-- `get_user_events`: fetch pages 1..10 of the user's event feed,
filtering by `since_date`. -/
def get_user_events (feed : Nat → Nat → Option (List Event))
    (since_date : DateTime) : List Event :=
  get_user_events_go feed since_date 1 10

/-! ## Event classifier / aggregator (`summarize_events` and handlers) -/

/-- One record of `summary['commit_details']`. -/
structure CommitDetail where
  repo : String
  sha : String
  message : String
  timestamp : DateTime
deriving DecidableEq

/-- One record of `summary['pr_details']` or `summary['issue_details']`.
`number` keeps the optional payload number; `none` stands for the
literal `'N/A'` the source stores as the `.get` default. -/
structure ItemDetail where
  repo : String
  title : String
  number : Option Nat
  timestamp : DateTime
  action : String
deriving DecidableEq

/-- One record of `summary['review_details']`. -/
structure ReviewDetail where
  repo : String
  pr_title : String
  pr_number : Option Nat
  timestamp : DateTime
deriving DecidableEq

/-- The mutable `summary` dictionary of `summarize_events`. -/
structure Summary where
  commits : Nat
  pull_requests_opened : Nat
  pull_requests_merged : Nat
  pull_requests_reviewed : Nat
  issues_opened : Nat
  issues_closed : Nat
  comments : Nat
  repos : List String
  commit_details : List CommitDetail
  pr_details : List ItemDetail
  issue_details : List ItemDetail
  review_details : List ReviewDetail
deriving DecidableEq

/-- The initial summary dictionary built at the top of `summarize_events`. -/
def initial_summary : Summary :=
  { commits := 0
    pull_requests_opened := 0
    pull_requests_merged := 0
    pull_requests_reviewed := 0
    issues_opened := 0
    issues_closed := 0
    comments := 0
    repos := []
    commit_details := []
    pr_details := []
    issue_details := []
    review_details := [] }

/-- The counter keys `_add_item_details` is called with. -/
inductive CounterKey
  | pull_requests_opened
  | pull_requests_merged
  | issues_opened
  | issues_closed
deriving DecidableEq

/-- The detail-list keys `_add_item_details` is called with. -/
inductive DetailsKey
  | pr_details
  | issue_details
deriving DecidableEq

/-- `summary[counter_key] += 1`. -/
def Summary.bump (s : Summary) : CounterKey → Summary
  | CounterKey.pull_requests_opened =>
    { s with pull_requests_opened := s.pull_requests_opened + 1 }
  | CounterKey.pull_requests_merged =>
    { s with pull_requests_merged := s.pull_requests_merged + 1 }
  | CounterKey.issues_opened => { s with issues_opened := s.issues_opened + 1 }
  | CounterKey.issues_closed => { s with issues_closed := s.issues_closed + 1 }

/-- `summary[details_key].append(item_data)`. -/
def Summary.appendDetail (s : Summary) : DetailsKey → ItemDetail → Summary
  | DetailsKey.pr_details, item => { s with pr_details := s.pr_details ++ [item] }
  | DetailsKey.issue_details, item =>
    { s with issue_details := s.issue_details ++ [item] }

/-- `_add_item_details`: increment a counter and append a detail record. -/
def add_item_details (s : Summary) (counter_key : CounterKey)
    (details_key : DetailsKey) (item_data : ItemDetail) : Summary :=
  (s.bump counter_key).appendDetail details_key item_data

/-- Python `message.split('\n')[0]`: the prefix of the string before the
first newline. -/
def firstLine (s : String) : String :=
  ⟨s.data.takeWhile (fun c => c ≠ '\n')⟩

/-- `_process_push_event`: count the payload's commits and append one
commit detail per commit, in payload order. -/
def process_push_event (event : Event) (repo_name : String) (s : Summary) : Summary :=
  let commits := event.payload.commits
  let s1 := { s with commits := s.commits + commits.length }
  { s1 with
    commit_details := s1.commit_details ++ commits.map (fun c =>
      { repo := repo_name
        sha := c.sha.take 7
        message := firstLine c.message
        timestamp := event.created_at }) }

/-- `_process_pr_event`: reads `payload['action']` and
`payload['pull_request']` with bare subscripts; records an opened PR, or
a closed PR whose payload says `merged` is true; any other action leaves
the summary unchanged. -/
def process_pr_event (event : Event) (repo_name : String) (s : Summary) :
    Except String Summary := do
  let action ← dictGet event.payload.action "action"
  let pr ← dictGet event.payload.pull_request "pull_request"
  let item_data : ItemDetail :=
    { repo := repo_name
      title := pr.title.getD "N/A"
      number := pr.number
      timestamp := event.created_at
      action := "" }
  if action = "opened" then
    pure (add_item_details s CounterKey.pull_requests_opened DetailsKey.pr_details
      { item_data with action := "opened" })
  else if action = "closed" ∧ pr.merged = some true then
    pure (add_item_details s CounterKey.pull_requests_merged DetailsKey.pr_details
      { item_data with action := "merged" })
  else
    pure s

/-- `_process_review_event`: increments the reviewed counter, then reads
`payload['pull_request']` with a bare subscript and appends a review
detail. -/
def process_review_event (event : Event) (repo_name : String) (s : Summary) :
    Except String Summary := do
  let s1 := { s with pull_requests_reviewed := s.pull_requests_reviewed + 1 }
  let pr ← dictGet event.payload.pull_request "pull_request"
  pure { s1 with
    review_details := s1.review_details ++
      [{ repo := repo_name
         pr_title := pr.title.getD "N/A"
         pr_number := pr.number
         timestamp := event.created_at }] }

/-- `_process_issue_event`: reads `payload['action']` and
`payload['issue']` with bare subscripts; records an opened or closed
issue; any other action leaves the summary unchanged. -/
def process_issue_event (event : Event) (repo_name : String) (s : Summary) :
    Except String Summary := do
  let action ← dictGet event.payload.action "action"
  let issue ← dictGet event.payload.issue "issue"
  let item_data : ItemDetail :=
    { repo := repo_name
      title := issue.title.getD "N/A"
      number := issue.number
      timestamp := event.created_at
      action := "" }
  if action = "opened" then
    pure (add_item_details s CounterKey.issues_opened DetailsKey.issue_details
      { item_data with action := "opened" })
  else if action = "closed" then
    pure (add_item_details s CounterKey.issues_closed DetailsKey.issue_details
      { item_data with action := "closed" })
  else
    pure s

/-- The comment event types of the `elif` branch of `summarize_events`. -/
def comment_event_types : List String :=
  ["IssueCommentEvent", "CommitCommentEvent", "PullRequestReviewCommentEvent"]

/-- The body of the `for event in events` loop of `summarize_events`:
read `event['type']` and `event['repo']['name']` (bare subscripts),
record the repository unconditionally, then dispatch on the type. -/
def process_event (s : Summary) (event : Event) : Except String Summary := do
  let event_type ← dictGet event.type "type"
  let repoObj ← dictGet event.repo "repo"
  let repo_name ← dictGet repoObj.name "name"
  let s1 := { s with repos := s.repos.insert repo_name }
  if event_type = "PushEvent" then
    pure (process_push_event event repo_name s1)
  else if event_type = "PullRequestEvent" then
    process_pr_event event repo_name s1
  else if event_type = "PullRequestReviewEvent" then
    process_review_event event repo_name s1
  else if event_type = "IssuesEvent" then
    process_issue_event event repo_name s1
  else if event_type ∈ comment_event_types then
    pure { s1 with comments := s1.comments + 1 }
  else
    pure s1

/-- `summarize_events`: fold the event list through `process_event`
starting from the empty summary; a `KeyError` anywhere aborts the whole
summarization, as an uncaught exception does in the source. -/
def summarize_events (events : List Event) : Except String Summary :=
  events.foldlM process_event initial_summary

/-! ## Shared formatting helpers (strftime patterns used by the renderers) -/

/-- `%B` month names. -/
def month_names : List String :=
  ["January", "February", "March", "April", "May", "June", "July",
   "August", "September", "October", "November", "December"]

/-- `%b` month abbreviations. -/
def month_abbrevs : List String :=
  ["Jan", "Feb", "Mar", "Apr", "May", "Jun", "Jul", "Aug", "Sep", "Oct",
   "Nov", "Dec"]

/-- Zero-padded two-digit field (`%d`, `%I`, `%M`). -/
def pad2 (n : Nat) : String := if n < 10 then "0" ++ toString n else toString n

/-- `%I`: hour on the 12-hour clock. -/
def hour12 (h : Nat) : Nat := (h + 11) % 12 + 1

/-- `%p`. -/
def am_pm (h : Nat) : String := if h < 12 then "AM" else "PM"

/-- `strftime('%B %d, %Y')` (period boundaries). -/
def fmt_period_date (d : DateTime) : String :=
  month_names.getD (d.month - 1) "" ++ " " ++ pad2 d.day ++ ", " ++ toString d.year

/-- `strftime('%B %d, %Y at %I:%M %p')` (generation timestamp). -/
def fmt_generated (d : DateTime) : String :=
  fmt_period_date d ++ " at " ++ pad2 (hour12 d.hour) ++ ":" ++ pad2 d.minute
    ++ " " ++ am_pm d.hour

/-- `strftime('%b %d, %I:%M %p')` (commit lines). -/
def fmt_commit_time (d : DateTime) : String :=
  month_abbrevs.getD (d.month - 1) "" ++ " " ++ pad2 d.day ++ ", "
    ++ pad2 (hour12 d.hour) ++ ":" ++ pad2 d.minute ++ " " ++ am_pm d.hour

/-- `strftime('%b %d, %Y at %I:%M %p')` (PR / issue / review lines). -/
def fmt_item_date (d : DateTime) : String :=
  month_abbrevs.getD (d.month - 1) "" ++ " " ++ pad2 d.day ++ ", "
    ++ toString d.year ++ " at " ++ pad2 (hour12 d.hour) ++ ":" ++ pad2 d.minute
    ++ " " ++ am_pm d.hour

/-- Python `sorted` on strings: ascending lexicographic by code points,
which is exactly `String.le`. -/
def pySorted (l : List String) : List String :=
  l.mergeSort (fun a b => decide (a ≤ b))

/-- Python `str.title()`: uppercase the first letter of each alphabetic
run, lowercase its remaining letters. -/
def title_map : List Char → Bool → List Char
  | [], _ => []
  | c :: cs, prev_alpha =>
    (if c.isAlpha then (if prev_alpha then c.toLower else c.toUpper) else c)
      :: title_map cs c.isAlpha

/-- Python `str.title()` on a whole string. -/
def pyTitleCase (s : String) : String := ⟨title_map s.data false⟩

/-- How an f-string renders the `number` field: the decimal digits when
the payload had one, the `'N/A'` default otherwise. -/
def numStr : Option Nat → String
  | some n => toString n
  | none => "N/A"

/-! ## Markdown renderer (`_format_markdown_report` and helpers) -/

/-- `_add_markdown_header`. -/
def add_markdown_header (username : String) (start_date end_date : DateTime) :
    List String :=
  ["# GitHub Activity Report",
   "\n**Developer:** " ++ username,
   "**Period:** " ++ fmt_period_date start_date ++ " - " ++ fmt_period_date end_date,
   "**Generated:** " ++ fmt_generated end_date,
   "\n---\n"]

/-- `_add_markdown_summary`. -/
def add_markdown_summary (summary : Summary) : List String :=
  ["## Executive Summary\n",
   "- **Total Commits:** " ++ toString summary.commits,
   "- **Pull Requests Opened:** " ++ toString summary.pull_requests_opened,
   "- **Pull Requests Merged:** " ++ toString summary.pull_requests_merged,
   "- **Pull Requests Reviewed:** " ++ toString summary.pull_requests_reviewed,
   "- **Issues Opened:** " ++ toString summary.issues_opened,
   "- **Issues Closed:** " ++ toString summary.issues_closed,
   "- **Comments Made:** " ++ toString summary.comments,
   "- **Active Repositories:** " ++ toString summary.repos.length]

/-- `_add_markdown_repos`. -/
def add_markdown_repos (repos : List String) : List String :=
  if repos.isEmpty then []
  else "\n## Active Repositories\n"
    :: (pySorted repos).map (fun repo => "- `" ++ repo ++ "`")

/-- The per-repository bucket of the `defaultdict(list)` built by
`_add_markdown_commits`; appending while scanning `commit_details`
keeps each bucket in encounter order, i.e. it is a filter. -/
def commits_for_repo (commit_details : List CommitDetail) (repo : String) :
    List CommitDetail :=
  commit_details.filter (fun c => c.repo == repo)

/-- `sorted(commits_by_repo.keys())`: the distinct repositories of the
commit details, sorted ascending. -/
def commit_repos (commit_details : List CommitDetail) : List String :=
  pySorted ((commit_details.map (fun c => c.repo)).eraseDups)

/-- One commit line of the markdown commits section. -/
def markdown_commit_line (c : CommitDetail) : String :=
  "- `" ++ c.sha ++ "` " ++ c.message ++ " *(" ++ fmt_commit_time c.timestamp ++ ")*"

/-- `_add_markdown_commits`: empty for no commit details, otherwise the
section header followed, for each repository in sorted order, by the
repository heading and its first 20 commit lines. -/
def add_markdown_commits (commit_details : List CommitDetail) : List String :=
  if commit_details.isEmpty then []
  else
    "\n## Commits\n" :: (commit_repos commit_details).flatMap (fun repo =>
      ("\n### " ++ repo)
        :: ((commits_for_repo commit_details repo).take 20).map markdown_commit_line)

/-- `_format_markdown_item`: marker from the emoji map (`•` default),
title-cased action, item number and title, repository, date. -/
def format_markdown_item (item : ItemDetail) (item_type : String)
    (emoji_map : List (String × String)) : List String :=
  let action_emoji := (emoji_map.lookup item.action).getD "•"
  [action_emoji ++ " **" ++ pyTitleCase item.action ++ "** " ++ item_type
     ++ " #" ++ numStr item.number ++ ": " ++ item.title,
   "   - Repository: `" ++ item.repo ++ "`",
   "   - Date: " ++ fmt_item_date item.timestamp ++ "\n"]

/-- The emoji map of `_add_markdown_prs`. -/
def pr_emoji_map : List (String × String) := [("opened", "🟢"), ("merged", "🟣")]

/-- The emoji map of `_add_markdown_issues`. -/
def issue_emoji_map : List (String × String) := [("opened", "🔵"), ("closed", "✅")]

/-- `_add_markdown_prs`: section header plus one item per PR detail, in
encounter order. -/
def add_markdown_prs (pr_details : List ItemDetail) : List String :=
  if pr_details.isEmpty then []
  else "\n## Pull Requests\n"
    :: pr_details.flatMap (fun pr => format_markdown_item pr "PR" pr_emoji_map)

/-- `_add_markdown_issues`. -/
def add_markdown_issues (issue_details : List ItemDetail) : List String :=
  if issue_details.isEmpty then []
  else "\n## Issues\n"
    :: issue_details.flatMap (fun issue => format_markdown_item issue "Issue" issue_emoji_map)

/-- `_add_markdown_reviews`: no action marker, encounter order. -/
def add_markdown_reviews (review_details : List ReviewDetail) : List String :=
  if review_details.isEmpty then []
  else "\n## Code Reviews\n" :: review_details.flatMap (fun review =>
    ["- Reviewed PR #" ++ numStr review.pr_number ++ ": " ++ review.pr_title,
     "  - Repository: `" ++ review.repo ++ "`",
     "  - Date: " ++ fmt_item_date review.timestamp ++ "\n"])

/-- `_format_markdown_report` before the final `'\n'.join`. -/
def format_markdown_report_lines (username : String) (start_date end_date : DateTime)
    (summary : Summary) (company : String) : List String :=
  add_markdown_header username start_date end_date
    ++ add_markdown_summary summary
    ++ add_markdown_repos summary.repos
    ++ add_markdown_commits summary.commit_details
    ++ add_markdown_prs summary.pr_details
    ++ add_markdown_issues summary.issue_details
    ++ add_markdown_reviews summary.review_details
    ++ ["\n---\n", "\n*Report generated automatically for " ++ company ++ "*"]

/-- `_format_markdown_report`. -/
def format_markdown_report (username : String) (start_date end_date : DateTime)
    (summary : Summary) (company : String) : String :=
  String.intercalate "\n"
    (format_markdown_report_lines username start_date end_date summary company)

/-! ## Plain-text renderer (`_format_text_report`) -/

/-- `c * 70`. -/
def rule_of (c : Char) : String := String.mk (List.replicate 70 c)

/-- `_format_text_report` before the final `'\n'.join`: header, executive
summary, active repositories (when non-empty) and footer — the source
has no commit / PR / issue / review sections in this format. -/
def format_text_report_lines (username : String) (start_date end_date : DateTime)
    (summary : Summary) (company : String) : List String :=
  [rule_of '=',
   "GITHUB ACTIVITY REPORT",
   rule_of '=',
   "\nDeveloper: " ++ username,
   "Period: " ++ fmt_period_date start_date ++ " - " ++ fmt_period_date end_date,
   "Generated: " ++ fmt_generated end_date,
   "\n" ++ rule_of '-',
   "\nEXECUTIVE SUMMARY",
   rule_of '-',
   "Total Commits: " ++ toString summary.commits,
   "Pull Requests Opened: " ++ toString summary.pull_requests_opened,
   "Pull Requests Merged: " ++ toString summary.pull_requests_merged,
   "Pull Requests Reviewed: " ++ toString summary.pull_requests_reviewed,
   "Issues Opened: " ++ toString summary.issues_opened,
   "Issues Closed: " ++ toString summary.issues_closed,
   "Comments Made: " ++ toString summary.comments,
   "Active Repositories: " ++ toString summary.repos.length]
  ++ (if summary.repos.isEmpty then []
      else ["\n" ++ rule_of '-', "ACTIVE REPOSITORIES", rule_of '-']
        ++ (pySorted summary.repos).map (fun repo => "  - " ++ repo))
  ++ ["\n" ++ rule_of '=',
      "Report generated for " ++ company,
      rule_of '=']

/-- `_format_text_report`. -/
def format_text_report (username : String) (start_date end_date : DateTime)
    (summary : Summary) (company : String) : String :=
  String.intercalate "\n"
    (format_text_report_lines username start_date end_date summary company)

/-! ## HTML renderer (`_format_html_report` and helpers) -/

/-- `_get_html_styles`: the fixed stylesheet (braces written `\x7b`/`\x7d`
and apostrophes `\x27`). -/
def get_html_styles : String :=
  String.intercalate "\n" ([""]
  ++ [
    "        * \x7b",
    "            margin: 0;",
    "            padding: 0;",
    "            box-sizing: border-box;",
    "        \x7d",
    "        body \x7b",
    "            font-family: -apple-system, BlinkMacSystemFont, \x27Segoe UI\x27, Roboto, \x27Helvetica Neue\x27, Arial, sans-serif;",
    "            line-height: 1.6;",
    "            background: linear-gradient(135deg, #4c51bf 0%, #5a3d7c 100%);",
    "            min-height: 100vh;",
    "            padding: 40px 20px;",
    "        \x7d",
    "        .container \x7b",
    "            max-width: 1200px;",
    "            margin: 0 auto;",
    "            background: white;",
    "            border-radius: 20px;",
    "            box-shadow: 0 20px 60px rgba(0,0,0,0.3);",
    "            overflow: hidden;",
    "        \x7d",
    "        .header \x7b",
    "            background: linear-gradient(135deg, #4c51bf 0%, #5a3d7c 100%);",
    "            color: white;",
    "            padding: 40px;",
    "            text-align: center;",
    "        \x7d",
    "        h1 \x7b",
    "            font-size: 2.5em;",
    "            font-weight: 700;",
    "            margin-bottom: 20px;",
    "            text-shadow: 2px 2px 4px rgba(0,0,0,0.2);",
    "        \x7d",
    "        .meta \x7b",
    "            display: flex;",
    "            justify-content: center;",
    "            gap: 30px;",
    "            flex-wrap: wrap;",
    "            font-size: 0.95em;",
    "            opacity: 0.95;",
    "        \x7d",
    "        .meta-item \x7b",
    "            display: flex;",
    "            align-items: center;",
    "            gap: 8px;",
    "        \x7d",
    "        .meta-item strong \x7b",
    "            font-weight: 600;",
    "        \x7d",
    "        .content \x7b",
    "            padding: 40px;",
    "        \x7d",
    "        h2 \x7b",
    "            color: #2d3748;",
    "            font-size: 1.8em;",
    "            margin: 30px 0 20px 0;",
    "            font-weight: 600;",
    "            display: flex;",
    "            align-items: center;",
    "            gap: 10px;",
    "        \x7d",
    "        h2:first-child \x7b",
    "            margin-top: 0;",
    "        \x7d",
    "        h2::before \x7b",
    "            content: \x27\x27;",
    "            display: inline-block;",
    "            width: 4px;",
    "            height: 28px;",
    "            background: linear-gradient(135deg, #4c51bf 0%, #5a3d7c 100%);",
    "            border-radius: 2px;",
    "        \x7d",
    "        .summary \x7b",
    "            display: grid;",
    "            grid-template-columns: repeat(auto-fit, minmax(240px, 1fr));",
    "            gap: 20px;",
    "            margin: 30px 0;",
    "        \x7d",
    "        .metric \x7b",
    "            background: linear-gradient(135deg, #f6f9fc 0%, #ffffff 100%);",
    "            padding: 24px;",
    "            border-radius: 12px;",
    "            border: 1px solid #e2e8f0;",
    "            transition: all 0.3s ease;",
    "            position: relative;",
    "            overflow: hidden;",
    "        \x7d",
    "        .metric::before \x7b",
    "            content: \x27\x27;",
    "            position: absolute;",
    "            top: 0;",
    "            left: 0;",
    "            width: 100%;",
    "            height: 4px;",
    "            background: linear-gradient(90deg, #4c51bf 0%, #5a3d7c 100%);",
    "            transform: scaleX(0);",
    "            transform-origin: left;",
    "            transition: transform 0.3s ease;",
    "        \x7d",
    "        .metric:hover \x7b",
    "            transform: translateY(-4px);",
    "            box-shadow: 0 12px 24px rgba(76, 81, 191, 0.15);",
    "            border-color: #4c51bf;",
    "        \x7d",
    "        .metric:hover::before \x7b",
    "            transform: scaleX(1);",
    "        \x7d",
    "        .metric-value \x7b",
    "            font-size: 2.5em;",
    "            font-weight: 700;",
    "            background: linear-gradient(135deg, #4c51bf 0%, #5a3d7c 100%);",
    "            -webkit-background-clip: text;",
    "            -webkit-text-fill-color: transparent;",
    "            background-clip: text;",
    "            margin-bottom: 8px;",
    "        \x7d",
    "        .metric-label \x7b",
    "            font-size: 0.85em;",
    "            color: #718096;",
    "            text-transform: uppercase;",
    "            font-weight: 600;",
    "            letter-spacing: 0.5px;",
    "        \x7d",
    "        .repo-list \x7b",
    "            background: linear-gradient(135deg, #f7fafc 0%, #edf2f7 100%);",
    "            padding: 24px;",
    "            border-radius: 12px;",
    "            border: 1px solid #e2e8f0;",
    "            font-family: \x27SF Mono\x27, \x27Monaco\x27, \x27Inconsolata\x27, \x27Fira Code\x27, \x27Droid Sans Mono\x27, \x27Source Code Pro\x27, monospace;",
    "            font-size: 0.95em;",
    "            line-height: 2;",
    "        \x7d",
    "        .repo-item \x7b",
    "            display: flex;",
    "            align-items: center;",
    "            gap: 10px;",
    "            padding: 8px 0;",
    "            color: #2d3748;",
    "            transition: all 0.2s ease;",
    "        \x7d",
    "        .repo-item::before \x7b",
    "            content: \x27📦\x27;",
    "            font-size: 1.2em;",
    "        \x7d",
    "        .repo-item:hover \x7b",
    "            color: #4c51bf;",
    "            transform: translateX(5px);",
    "        \x7d",
    "        .footer \x7b",
    "            background: linear-gradient(135deg, #f7fafc 0%, #edf2f7 100%);",
    "            margin-top: 40px;",
    "            padding: 30px;",
    "            text-align: center;",
    "            color: #4a5568;",
    "            font-style: italic;",
    "            border-top: 3px solid #e2e8f0;",
    "        \x7d",
    "        .footer::before \x7b",
    "            content: \x27🤖\x27;",
    "            display: block;",
    "            font-size: 2em;",
    "            margin-bottom: 10px;",
    "        \x7d",
    "        @media (max-width: 768px) \x7b",
    "            body \x7b",
    "                padding: 20px 10px;",
    "            \x7d",
    "            .header \x7b",
    "                padding: 30px 20px;",
    "            \x7d",
    "            h1 \x7b",
    "                font-size: 1.8em;",
    "            \x7d",
    "            .content \x7b",
    "                padding: 20px;",
    "            \x7d",
    "            .meta \x7b",
    "                flex-direction: column;",
    "                gap: 10px;",
    "                align-items: center;",
    "            \x7d",
    "            .summary \x7b",
    "                grid-template-columns: 1fr;",
    "            \x7d",
    "        \x7d"
  ]
  ++ ["        "])

/-- `_get_html_metric`. -/
def get_html_metric (value : Nat) (label : String) : String :=
  "\n            <div class=\"metric\">\n                <div class=\"metric-value\">"
    ++ toString value
    ++ "</div>\n                <div class=\"metric-label\">"
    ++ label
    ++ "</div>\n            </div>"

/-- The `metrics` list of `_get_html_summary`. -/
def html_metrics (summary : Summary) : List (Nat × String) :=
  [(summary.commits, "Total Commits"),
   (summary.pull_requests_opened, "PRs Opened"),
   (summary.pull_requests_merged, "PRs Merged"),
   (summary.pull_requests_reviewed, "PRs Reviewed"),
   (summary.issues_opened, "Issues Opened"),
   (summary.issues_closed, "Issues Closed"),
   (summary.comments, "Comments"),
   (summary.repos.length, "Active Repos")]

/-- `_get_html_summary`. -/
def get_html_summary (summary : Summary) : String :=
  let metric_html :=
    String.join ((html_metrics summary).map (fun m => get_html_metric m.1 m.2))
  "\n        <h2>Executive Summary</h2>\n        <div class=\"summary\">"
    ++ metric_html ++ "\n        </div>"

/-- The `repos_html` join of `_format_html_report`. -/
def html_repo_items (repos : List String) : String :=
  String.intercalate "\n"
    ((pySorted repos).map (fun repo => "<div class=\"repo-item\">" ++ repo ++ "</div>"))

/-- `_format_html_report`: a single document with header, executive
summary and repository list — the source has no commit / PR / issue /
review sections in this format either. -/
def format_html_report (username : String) (start_date end_date : DateTime)
    (summary : Summary) (company : String) : String :=
  let styles := get_html_styles
  let summary_html := get_html_summary summary
  let repos_html := html_repo_items summary.repos
  "<!DOCTYPE html>\n<html lang=\"en\">\n<head>\n    <meta charset=\"UTF-8\">\n    <meta name=\"viewport\" content=\"width=device-width, initial-scale=1.0\">\n    <title>GitHub Activity Report - "
  ++ username
  ++ "</title>\n    <style>"
  ++ styles
  ++ "</style>\n</head>\n<body>\n    <div class=\"container\">\n        <div class=\"header\">\n            <h1>📊 GitHub Activity Report</h1>\n            <div class=\"meta\">\n                <div class=\"meta-item\">\n                    <strong>👨‍💻 Developer:</strong> <span>"
  ++ username
  ++ "</span>\n                </div>\n                <div class=\"meta-item\">\n                    <strong>📅 Period:</strong> <span>"
  ++ fmt_period_date start_date ++ " - " ++ fmt_period_date end_date
  ++ "</span>\n                </div>\n                <div class=\"meta-item\">\n                    <strong>🕐 Generated:</strong> <span>"
  ++ fmt_generated end_date
  ++ "</span>\n                </div>\n            </div>\n        </div>\n        <div class=\"content\">\n            "
  ++ summary_html
  ++ "\n            <h2>Active Repositories</h2>\n            <div class=\"repo-list\">"
  ++ repos_html
  ++ "</div>\n        </div>\n        <div class=\"footer\">\n            Report generated automatically for "
  ++ company
  ++ "\n        </div>\n    </div>\n</body>\n</html>"

/-! ## Top-level report generation (`generate_report`) -/

/-- `generate_report`: fetch the events, short-circuit to the fixed
no-activity message when there are none, otherwise summarize and render
in the requested format (anything other than `markdown` / `html` falls
through to the plain-text renderer).  `end_date` stands for
`datetime.now()`, `start_date` for `now - timedelta(days=days_back)`,
which is also the fetcher's `since_date`. -/
def generate_report (feed : Nat → Nat → Option (List Event)) (username : String)
    (start_date end_date : DateTime) (output_format company : String) :
    Except String String :=
  let events := get_user_events feed start_date
  if events.isEmpty then
    Except.ok "No GitHub activity found for the specified period."
  else do
    let summary ← summarize_events events
    if output_format = "markdown" then
      pure (format_markdown_report username start_date end_date summary company)
    else if output_format = "html" then
      pure (format_html_report username start_date end_date summary company)
    else
      pure (format_text_report username start_date end_date summary company)

/-! ## Helper lemmas: the fetcher loop -/

/-- The acceptance predicate of `_filter_events_by_date`: the event's
timestamp is not strictly earlier than the cutoff. -/
def within_window (since_date : DateTime) (e : Event) : Bool :=
  !DateTime.ltb e.created_at since_date

lemma filter_events_fst (since_date : DateTime) (l : List Event) :
    (filter_events_by_date since_date l).1 = l.takeWhile (within_window since_date) := by
  induction l with
  | nil => rfl
  | cons e rest ih =>
    by_cases h : DateTime.ltb e.created_at since_date
    · simp [filter_events_by_date, List.takeWhile_cons, within_window, h]
    · simp [filter_events_by_date, List.takeWhile_cons, within_window, h, ih]

lemma filter_events_snd (since_date : DateTime) (l : List Event) :
    (filter_events_by_date since_date l).2 = l.all (within_window since_date) := by
  induction l with
  | nil => rfl
  | cons e rest ih =>
    by_cases h : DateTime.ltb e.created_at since_date
    · simp [filter_events_by_date, within_window, h]
    · simp [filter_events_by_date, within_window, h, ih]

lemma takeWhile_append_of_all {p : α → Bool} {l₁ : List α} (l₂ : List α)
    (h : ∀ a ∈ l₁, p a = true) : (l₁ ++ l₂).takeWhile p = l₁ ++ l₂.takeWhile p := by
  induction l₁ with
  | nil => simp
  | cons a l ih =>
    simp only [List.cons_append, List.takeWhile_cons, h a (by simp)]
    simp [ih fun b hb => h b (by simp [hb])]

lemma takeWhile_append_of_not_all {p : α → Bool} {l₁ : List α} (l₂ : List α)
    (h : l₁.all p = false) : (l₁ ++ l₂).takeWhile p = l₁.takeWhile p := by
  induction l₁ with
  | nil => simp at h
  | cons a l ih =>
    by_cases ha : p a
    · simp only [List.all_cons, ha, Bool.true_and] at h
      simp [List.takeWhile_cons, ha, ih h]
    · simp [List.takeWhile_cons, ha]

lemma takeWhile_eq_self_of_all {p : α → Bool} {l : List α}
    (h : ∀ a ∈ l, p a = true) : l.takeWhile p = l :=
  List.takeWhile_eq_self_iff.mpr h

/-- The paging loop, characterized on a feed whose pages 1..fuel are all
present and non-empty: it returns the longest within-window prefix of the
concatenated pages, in received order. -/
lemma go_eq_takeWhile (feed : Nat → Nat → Option (List Event)) (since_date : DateTime)
    (pages : Nat → List Event) :
    ∀ (fuel page : Nat),
      (∀ i, page ≤ i → i < page + fuel → feed i 100 = some (pages i) ∧ pages i ≠ []) →
      get_user_events_go feed since_date page fuel
        = ((List.range' page fuel).flatMap pages).takeWhile (within_window since_date) := by
  intro fuel
  induction fuel with
  | zero => intro page _; simp [get_user_events_go]
  | succ fuel ih =>
    intro page h
    obtain ⟨hfeed, hne⟩ := h page (le_refl page) (by omega)
    rw [List.range'_succ, List.flatMap_cons]
    simp only [get_user_events_go, hfeed, List.isEmpty_eq_false.mpr hne, Bool.false_eq_true,
      if_false, filter_events_fst, filter_events_snd]
    by_cases hall : (pages page).all (within_window since_date)
    · rw [if_pos hall, ih (page + 1) (fun i h1 h2 => h i (by omega) (by omega)),
        takeWhile_append_of_all _ (List.all_eq_true.mp hall),
        takeWhile_eq_self_of_all (List.all_eq_true.mp hall)]
    · rw [if_neg hall, takeWhile_append_of_not_all _ (Bool.eq_false_iff.mpr hall)]
      simp

/-- Every event the loop returns is within the window. -/
lemma go_mem_within (feed : Nat → Nat → Option (List Event)) (since_date : DateTime) :
    ∀ (fuel page : Nat) (e : Event), e ∈ get_user_events_go feed since_date page fuel →
      within_window since_date e = true := by
  intro fuel
  induction fuel with
  | zero => intro page e h; simp [get_user_events_go] at h
  | succ fuel ih =>
    intro page e h
    simp only [get_user_events_go] at h
    match hfeed : feed page 100 with
    | none => rw [hfeed] at h; simp at h
    | some page_events =>
      simp only [hfeed] at h
      by_cases hemp : page_events.isEmpty
      · simp [hemp] at h
      · rw [if_neg hemp] at h
        rcases List.mem_append.mp h with hl | hr
        · exact List.mem_takeWhile_imp (by rwa [filter_events_fst] at hl)
        · by_cases hc : (filter_events_by_date since_date page_events).2
          · exact ih (page + 1) e (by rwa [if_pos hc] at hr)
          · rw [if_neg hc] at hr; simp at hr

/-- Length bound of the paging loop: when the transport honors
`per_page = 100`, at most `fuel * 100` events are returned. -/
lemma go_length_le (feed : Nat → Nat → Option (List Event)) (since_date : DateTime)
    (hbound : ∀ p l, feed p 100 = some l → l.length ≤ 100) :
    ∀ (fuel page : Nat), (get_user_events_go feed since_date page fuel).length ≤ fuel * 100 := by
  intro fuel
  induction fuel with
  | zero => intro page; simp [get_user_events_go]
  | succ fuel ih =>
    intro page
    simp only [get_user_events_go]
    match hfeed : feed page 100 with
    | none => simp
    | some page_events =>
      simp only [hfeed]
      by_cases hemp : page_events.isEmpty
      · simp [hemp]
      · rw [if_neg hemp]
        have hlen : (filter_events_by_date since_date page_events).1.length ≤ 100 := by
          rw [filter_events_fst]
          exact le_trans (List.Sublist.length_le (List.takeWhile_sublist _))
            (hbound page page_events hfeed)
        by_cases hc : (filter_events_by_date since_date page_events).2
        · rw [if_pos hc]
          have := ih (page + 1)
          simp only [List.length_append]
          omega
        · rw [if_neg hc]
          simp only [List.length_append, List.length_nil]
          omega

/-- The paging loop consumes `m` fully-accepted pages and continues from
page `page + m` with the remaining fuel. -/
lemma go_full_pages (feed : Nat → Nat → Option (List Event)) (since_date : DateTime)
    (pages : Nat → List Event) :
    ∀ (m page fuel : Nat), m ≤ fuel →
      (∀ i, page ≤ i → i < page + m →
        feed i 100 = some (pages i) ∧ pages i ≠ [] ∧
          (pages i).all (within_window since_date) = true) →
      get_user_events_go feed since_date page fuel
        = (List.range' page m).flatMap pages
            ++ get_user_events_go feed since_date (page + m) (fuel - m) := by
  intro m
  induction m with
  | zero => intro page fuel _ _; simp
  | succ m ih =>
    intro page fuel hm h
    match fuel, hm with
    | fuel + 1, _ =>
      obtain ⟨hfeed, hne, hall⟩ := h page (le_refl page) (by omega)
      rw [List.range'_succ, List.flatMap_cons]
      simp only [get_user_events_go, hfeed, List.isEmpty_eq_false.mpr hne, Bool.false_eq_true,
        if_false, filter_events_fst, filter_events_snd, hall, if_pos,
        takeWhile_eq_self_of_all (List.all_eq_true.mp hall)]
      rw [ih (page + 1) fuel (by omega) (fun i h1 h2 => h i (by omega) (by omega))]
      have h1 : page + 1 + m = page + (m + 1) := by omega
      have h2 : fuel - m = fuel + 1 - (m + 1) := by omega
      rw [h1, h2, List.append_assoc]

/-! ## Helper lemmas: the aggregator -/

lemma ok_bind (v : α) (f : α → Except String β) : (Except.ok v >>= f) = f v := rfl

lemma error_bind (m : String) (f : α → Except String β) :
    ((Except.error m : Except String α) >>= f) = Except.error m := rfl

lemma pure_eq_ok (v : α) : (pure v : Except String α) = Except.ok v := rfl

/-- The counter/detail-list invariant of the Activity Summary: the commit
counter equals the commit-detail count, opened+merged PRs the PR-detail
count, opened+closed issues the issue-detail count, and the reviewed
counter the review-detail count; the comment counter has no detail list
in the data model. -/
def counters_match (s : Summary) : Prop :=
  s.commits = s.commit_details.length ∧
  s.pull_requests_opened + s.pull_requests_merged = s.pr_details.length ∧
  s.issues_opened + s.issues_closed = s.issue_details.length ∧
  s.pull_requests_reviewed = s.review_details.length

lemma process_push_event_counters (e : Event) (rn : String) (s : Summary)
    (h : counters_match s) : counters_match (process_push_event e rn s) := by
  simp only [counters_match, process_push_event, List.length_append, List.length_map] at h ⊢
  omega

lemma process_pr_event_counters (e : Event) (rn : String) (s s' : Summary)
    (hok : process_pr_event e rn s = Except.ok s') (h : counters_match s) :
    counters_match s' := by
  unfold process_pr_event at hok
  match ha : e.payload.action with
  | none => rw [ha] at hok; simp [dictGet, ok_bind, error_bind] at hok
  | some action =>
    rw [ha] at hok
    match hp : e.payload.pull_request with
    | none => rw [hp] at hok; simp [dictGet, ok_bind, error_bind] at hok
    | some pr =>
      rw [hp] at hok
      simp only [dictGet, ok_bind] at hok
      split at hok
      · simp only [pure_eq_ok, Except.ok.injEq] at hok
        subst hok
        simp only [counters_match, add_item_details, Summary.bump, Summary.appendDetail,
          List.length_append, List.length_singleton] at h ⊢
        omega
      · split at hok
        · simp only [pure_eq_ok, Except.ok.injEq] at hok
          subst hok
          simp only [counters_match, add_item_details, Summary.bump, Summary.appendDetail,
            List.length_append, List.length_singleton] at h ⊢
          omega
        · simp only [pure_eq_ok, Except.ok.injEq] at hok
          subst hok
          exact h

lemma process_review_event_counters (e : Event) (rn : String) (s s' : Summary)
    (hok : process_review_event e rn s = Except.ok s') (h : counters_match s) :
    counters_match s' := by
  unfold process_review_event at hok
  match hp : e.payload.pull_request with
  | none => rw [hp] at hok; simp [dictGet, ok_bind, error_bind] at hok
  | some pr =>
    rw [hp] at hok
    simp only [dictGet, ok_bind, pure_eq_ok, Except.ok.injEq] at hok
    subst hok
    simp only [counters_match, List.length_append, List.length_singleton] at h ⊢
    omega

lemma process_issue_event_counters (e : Event) (rn : String) (s s' : Summary)
    (hok : process_issue_event e rn s = Except.ok s') (h : counters_match s) :
    counters_match s' := by
  unfold process_issue_event at hok
  match ha : e.payload.action with
  | none => rw [ha] at hok; simp [dictGet, ok_bind, error_bind] at hok
  | some action =>
    rw [ha] at hok
    match hp : e.payload.issue with
    | none => rw [hp] at hok; simp [dictGet, ok_bind, error_bind] at hok
    | some issue =>
      rw [hp] at hok
      simp only [dictGet, ok_bind] at hok
      split at hok
      · simp only [pure_eq_ok, Except.ok.injEq] at hok
        subst hok
        simp only [counters_match, add_item_details, Summary.bump, Summary.appendDetail,
          List.length_append, List.length_singleton] at h ⊢
        omega
      · split at hok
        · simp only [pure_eq_ok, Except.ok.injEq] at hok
          subst hok
          simp only [counters_match, add_item_details, Summary.bump, Summary.appendDetail,
            List.length_append, List.length_singleton] at h ⊢
          omega
        · simp only [pure_eq_ok, Except.ok.injEq] at hok
          subst hok
          exact h

lemma counters_match_set_repos (s : Summary) (r : List String) :
    counters_match { s with repos := r } ↔ counters_match s := by
  simp [counters_match]

lemma process_event_counters (s : Summary) (e : Event) (s' : Summary)
    (hok : process_event s e = Except.ok s') (h : counters_match s) : counters_match s' := by
  unfold process_event at hok
  match ht : e.type with
  | none => rw [ht] at hok; simp [dictGet, ok_bind, error_bind] at hok
  | some t =>
    rw [ht] at hok
    match hr : e.repo with
    | none => rw [hr] at hok; simp [dictGet, ok_bind, error_bind] at hok
    | some ro =>
      rw [hr] at hok
      simp only [dictGet, ok_bind] at hok
      match hn : ro.name with
      | none =>
        rw [hn] at hok
        simp [dictGet, ok_bind, error_bind] at hok
      | some rn =>
        rw [hn] at hok
        simp only [dictGet, ok_bind] at hok
        have h1 : counters_match { s with repos := s.repos.insert rn } :=
          (counters_match_set_repos s _).mpr h
        split at hok
        · simp only [pure_eq_ok, Except.ok.injEq] at hok
          subst hok
          exact process_push_event_counters e rn _ h1
        · split at hok
          · exact process_pr_event_counters e rn _ s' hok h1
          · split at hok
            · exact process_review_event_counters e rn _ s' hok h1
            · split at hok
              · exact process_issue_event_counters e rn _ s' hok h1
              · split at hok
                · simp only [pure_eq_ok, Except.ok.injEq] at hok
                  subst hok
                  simpa [counters_match] using h
                · simp only [pure_eq_ok, Except.ok.injEq] at hok
                  subst hok
                  exact h1

lemma foldlM_process_event_counters :
    ∀ (events : List Event) (s s' : Summary), counters_match s →
      events.foldlM process_event s = Except.ok s' → counters_match s' := by
  intro events
  induction events with
  | nil =>
    intro s s' h hok
    rw [List.foldlM_nil] at hok
    simp only [pure_eq_ok, Except.ok.injEq] at hok
    subst hok
    exact h
  | cons e es ih =>
    intro s s' h hok
    rw [List.foldlM_cons] at hok
    match hstep : process_event s e with
    | Except.error m => rw [hstep] at hok; simp [error_bind] at hok
    | Except.ok s1 =>
      rw [hstep, ok_bind] at hok
      exact ih s1 s' (process_event_counters s e s1 hstep h) hok

/-! ## Helper lemmas: repository recording -/

lemma process_push_event_repos (e : Event) (rn : String) (s : Summary) :
    (process_push_event e rn s).repos = s.repos := rfl

lemma process_pr_event_repos (e : Event) (rn : String) (s s' : Summary)
    (hok : process_pr_event e rn s = Except.ok s') : s'.repos = s.repos := by
  unfold process_pr_event at hok
  match ha : e.payload.action with
  | none => rw [ha] at hok; simp [dictGet, ok_bind, error_bind] at hok
  | some action =>
    rw [ha] at hok
    match hp : e.payload.pull_request with
    | none => rw [hp] at hok; simp [dictGet, ok_bind, error_bind] at hok
    | some pr =>
      rw [hp] at hok
      simp only [dictGet, ok_bind] at hok
      split at hok
      · simp only [pure_eq_ok, Except.ok.injEq] at hok
        subst hok
        rfl
      · split at hok <;>
          (simp only [pure_eq_ok, Except.ok.injEq] at hok; subst hok; rfl)

lemma process_review_event_repos (e : Event) (rn : String) (s s' : Summary)
    (hok : process_review_event e rn s = Except.ok s') : s'.repos = s.repos := by
  unfold process_review_event at hok
  match hp : e.payload.pull_request with
  | none => rw [hp] at hok; simp [dictGet, ok_bind, error_bind] at hok
  | some pr =>
    rw [hp] at hok
    simp only [dictGet, ok_bind, pure_eq_ok, Except.ok.injEq] at hok
    subst hok
    rfl

lemma process_issue_event_repos (e : Event) (rn : String) (s s' : Summary)
    (hok : process_issue_event e rn s = Except.ok s') : s'.repos = s.repos := by
  unfold process_issue_event at hok
  match ha : e.payload.action with
  | none => rw [ha] at hok; simp [dictGet, ok_bind, error_bind] at hok
  | some action =>
    rw [ha] at hok
    match hp : e.payload.issue with
    | none => rw [hp] at hok; simp [dictGet, ok_bind, error_bind] at hok
    | some issue =>
      rw [hp] at hok
      simp only [dictGet, ok_bind] at hok
      split at hok
      · simp only [pure_eq_ok, Except.ok.injEq] at hok
        subst hok
        rfl
      · split at hok <;>
          (simp only [pure_eq_ok, Except.ok.injEq] at hok; subst hok; rfl)

/-! ## Helper lemmas and definitions: the renderers -/

/-- A summary with all four detail lists emptied; the plain-text and HTML
renderers cannot distinguish a summary from its cleared version. -/
def Summary.clearDetails (s : Summary) : Summary :=
  { s with commit_details := [], pr_details := [], issue_details := [],
           review_details := [] }

lemma pySorted_sorted (l : List String) : List.Sorted (· ≤ ·) (pySorted l) := by
  have hp := @List.sorted_mergeSort String (fun a b => decide (a ≤ b))
    (fun a b c hab hbc =>
      decide_eq_true (le_trans (of_decide_eq_true hab) (of_decide_eq_true hbc)))
    (fun a b => by
      simp only []
      rcases le_total a b with h | h
      · rw [decide_eq_true h]; exact Bool.true_or _
      · rw [decide_eq_true h]; exact Bool.or_true _)
    l
  exact hp.imp fun hab => of_decide_eq_true hab

/-- The fixed document text of `_format_html_report` strictly before the
interpolated executive-summary block. -/
def html_before_summary (username : String) (start_date end_date : DateTime) : String :=
  "<!DOCTYPE html>\n<html lang=\"en\">\n<head>\n    <meta charset=\"UTF-8\">\n    <meta name=\"viewport\" content=\"width=device-width, initial-scale=1.0\">\n    <title>GitHub Activity Report - "
  ++ username
  ++ "</title>\n    <style>"
  ++ get_html_styles
  ++ "</style>\n</head>\n<body>\n    <div class=\"container\">\n        <div class=\"header\">\n            <h1>📊 GitHub Activity Report</h1>\n            <div class=\"meta\">\n                <div class=\"meta-item\">\n                    <strong>👨‍💻 Developer:</strong> <span>"
  ++ username
  ++ "</span>\n                </div>\n                <div class=\"meta-item\">\n                    <strong>📅 Period:</strong> <span>"
  ++ fmt_period_date start_date ++ " - " ++ fmt_period_date end_date
  ++ "</span>\n                </div>\n                <div class=\"meta-item\">\n                    <strong>🕐 Generated:</strong> <span>"
  ++ fmt_generated end_date
  ++ "</span>\n                </div>\n            </div>\n        </div>\n        <div class=\"content\">\n            "

/-- The fixed document text between the executive summary and the
repository list. -/
def html_between_summary_and_repos : String :=
  "\n            <h2>Active Repositories</h2>\n            <div class=\"repo-list\">"

/-- The fixed document text after the repository list. -/
def html_after_repos (company : String) : String :=
  "</div>\n        </div>\n        <div class=\"footer\">\n            Report generated automatically for "
  ++ company
  ++ "\n        </div>\n    </div>\n</body>\n</html>"

lemma format_html_report_decomposition (username : String) (start_date end_date : DateTime)
    (summary : Summary) (company : String) :
    format_html_report username start_date end_date summary company
      = html_before_summary username start_date end_date
        ++ get_html_summary summary
        ++ html_between_summary_and_repos
        ++ html_repo_items summary.repos
        ++ html_after_repos company := by
  simp only [format_html_report, html_before_summary, html_between_summary_and_repos,
    html_after_repos, String.append_assoc]

lemma text_report_repo_lines_sublist (username company : String)
    (start_date end_date : DateTime) (summary : Summary) :
    List.Sublist ((pySorted summary.repos).map (fun repo => "  - " ++ repo))
      (format_text_report_lines username start_date end_date summary company) := by
  unfold format_text_report_lines
  by_cases h : summary.repos.isEmpty
  · rw [List.isEmpty_iff] at h
    simp [h, pySorted, List.mergeSort]
  · rw [if_neg h]
    refine List.Sublist.trans ?_ (List.sublist_append_left _ _)
    refine List.Sublist.trans ?_ (List.sublist_append_right _ _)
    exact List.sublist_append_right _ _

/-! ## Concrete sample data for the witnesses -/

/-- A sample instant: 2026-10-05T14:30:00Z. -/
def sample_date : DateTime := ⟨2026, 10, 5, 14, 30, 0⟩

/-- A sample cutoff: 2026-10-01T00:00:00Z. -/
def sample_cutoff : DateTime := ⟨2026, 10, 1, 0, 0, 0⟩

/-- A sample instant before the cutoff: 2026-09-20T08:00:00Z. -/
def sample_old_date : DateTime := ⟨2026, 9, 20, 8, 0, 0⟩

/-- A payload with no optional keys present. -/
def sample_payload : Payload :=
  { commits := [], action := none, pull_request := none, issue := none }

/-- A sample repo object. -/
def sample_repo : Repo := { name := some "octo/alpha" }

/-- An unrecognized-type event inside the window. -/
def new_event : Event :=
  { type := some "WatchEvent", repo := some sample_repo,
    created_at := sample_date, payload := sample_payload }

/-- An unrecognized-type event strictly before the cutoff. -/
def old_event : Event :=
  { type := some "WatchEvent", repo := some sample_repo,
    created_at := sample_old_date, payload := sample_payload }

/-- A push event with two commits. -/
def push_event : Event :=
  { type := some "PushEvent", repo := some sample_repo, created_at := sample_date,
    payload :=
      { commits := [{ sha := "0123456789abcdef", message := "first line\nrest of body" },
                    { sha := "fedcba9876543210", message := "second" }],
        action := none, pull_request := none, issue := none } }

/-- The summary `summarize_events` produces from `[push_event]`. -/
def sample_push_summary : Summary :=
  { commits := 2, pull_requests_opened := 0, pull_requests_merged := 0,
    pull_requests_reviewed := 0, issues_opened := 0, issues_closed := 0, comments := 0,
    repos := ["octo/alpha"],
    commit_details :=
      [{ repo := "octo/alpha", sha := "0123456", message := "first line",
         timestamp := sample_date },
       { repo := "octo/alpha", sha := "fedcba9", message := "second",
         timestamp := sample_date }],
    pr_details := [], issue_details := [], review_details := [] }

/-- A PR event: closed and merged. -/
def pr_merged_event : Event :=
  { type := some "PullRequestEvent", repo := some sample_repo, created_at := sample_date,
    payload :=
      { commits := [], action := some "closed",
        pull_request := some { title := some "Add feature", number := some 7,
                               merged := some true },
        issue := none } }

/-- A PR event: closed without being merged. -/
def pr_closed_unmerged_event : Event :=
  { type := some "PullRequestEvent", repo := some sample_repo, created_at := sample_date,
    payload :=
      { commits := [], action := some "closed",
        pull_request := some { title := some "Drop flag", number := some 8,
                               merged := some false },
        issue := none } }

/-- An event lacking the required `type` key. -/
def sample_event_no_type : Event :=
  { type := none, repo := some sample_repo, created_at := sample_date,
    payload := sample_payload }

/-- A PR event lacking the required `action` key. -/
def sample_pr_no_action : Event :=
  { type := some "PullRequestEvent", repo := some sample_repo,
    created_at := sample_date, payload := sample_payload }

/-- An opened-PR event whose descriptor has no `title` and no `number`. -/
def sample_pr_na : Event :=
  { type := some "PullRequestEvent", repo := some sample_repo, created_at := sample_date,
    payload :=
      { commits := [], action := some "opened",
        pull_request := some { title := none, number := none, merged := none },
        issue := none } }

/-- A feed whose every page is `[new_event, old_event]`. -/
def sample_feed_c2 : Nat → Nat → Option (List Event) :=
  fun _ _ => some [new_event, old_event]

/-- A feed whose every page is 100 within-window events. -/
def sample_feed_c5 : Nat → Nat → Option (List Event) :=
  fun _ _ => some (List.replicate 100 new_event)

/-- A feed whose pages 1–2 are present and whose page 3 request fails. -/
def sample_feed_c6 : Nat → Nat → Option (List Event) :=
  fun p _ => if p ≤ 2 then some [new_event] else none

/-- A feed on which every request fails. -/
def sample_feed_empty : Nat → Nat → Option (List Event) := fun _ _ => none

/-! ## The claims -/

/-- C1: for every list of events accepted by `summarize_events`, the commits
counter equals the length of the commit-details list, PRs opened plus PRs
merged equals the length of the PR-details list, issues opened plus issues
closed equals the length of the issue-details list, and the PRs-reviewed
counter equals the length of the review-details list; the comments counter
has no detail list in the `Summary` data model. -/
theorem summarize_events_counters_match (events : List Event) (s : Summary)
    (h : summarize_events events = Except.ok s) : counters_match s := by
  unfold summarize_events at h
  exact foldlM_process_event_counters events initial_summary s
    (by simp [counters_match, initial_summary]) h

/-- Witness for C1: the invariant at the concrete summary of `[push_event]`. -/
theorem summarize_events_counters_match_witness : counters_match sample_push_summary :=
  summarize_events_counters_match [push_event] sample_push_summary rfl

/-- C2: when every page 1..10 is present and non-empty, `get_user_events`
returns exactly the longest prefix of the concatenated pages (received
order, no re-sorting) consisting of events not strictly earlier than the
cutoff: the first old event is excluded together with everything after it
on its page and on all later pages; moreover every returned event is
within the window. -/
theorem get_user_events_strict_cutoff (feed : Nat → Nat → Option (List Event))
    (since_date : DateTime) (pages : Nat → List Event)
    (hpages : ∀ i, 1 ≤ i → i ≤ 10 → feed i 100 = some (pages i) ∧ pages i ≠ []) :
    get_user_events feed since_date
      = ((List.range' 1 10).flatMap pages).takeWhile (within_window since_date) ∧
    ∀ e ∈ get_user_events feed since_date,
      DateTime.ltb e.created_at since_date = false := by
  constructor
  · exact go_eq_takeWhile feed since_date pages 10 1
      (fun i h1 h2 => hpages i h1 (by omega))
  · intro e he
    have := go_mem_within feed since_date 10 1 e he
    simpa [within_window] using this

/-- Witness for C2 at a concrete two-event feed whose second event is old. -/
theorem get_user_events_strict_cutoff_witness :
    get_user_events sample_feed_c2 sample_cutoff
      = ((List.range' 1 10).flatMap fun _ => [new_event, old_event]).takeWhile
          (within_window sample_cutoff) :=
  (get_user_events_strict_cutoff sample_feed_c2 sample_cutoff
    (fun _ => [new_event, old_event])
    (fun _ _ _ => ⟨rfl, List.cons_ne_nil _ _⟩)).1

/-- C4: for a pull-request event with action `closed`, `process_event`
increments exactly the PRs-merged counter and appends one PR detail tagged
`merged` when the payload says `merged = true`; when it does not, no
counter changes and no detail is appended — only the repository is
recorded in the touched set. -/
theorem process_event_pr_closed_cases (e : Event) (s : Summary) (rn : String)
    (pr : PullRequestDesc)
    (htype : e.type = some "PullRequestEvent")
    (hrepo : e.repo = some { name := some rn })
    (haction : e.payload.action = some "closed")
    (hpr : e.payload.pull_request = some pr) :
    (pr.merged = some true →
      process_event s e = Except.ok
        { s with repos := s.repos.insert rn,
                 pull_requests_merged := s.pull_requests_merged + 1,
                 pr_details := s.pr_details ++
                   [{ repo := rn, title := pr.title.getD "N/A", number := pr.number,
                      timestamp := e.created_at, action := "merged" }] }) ∧
    (pr.merged ≠ some true →
      process_event s e = Except.ok { s with repos := s.repos.insert rn }) := by
  constructor
  · intro hm
    simp [process_event, dictGet, htype, hrepo, haction, hpr, ok_bind, pure_eq_ok,
      process_pr_event, add_item_details, Summary.bump, Summary.appendDetail, hm]
  · intro hm
    simp [process_event, dictGet, htype, hrepo, haction, hpr, ok_bind, pure_eq_ok,
      process_pr_event, add_item_details, hm]

/-- Witness for C4: the merged and the closed-unmerged concrete PR events. -/
theorem process_event_pr_closed_cases_witness :
    process_event initial_summary pr_merged_event = Except.ok
      { initial_summary with
        repos := initial_summary.repos.insert "octo/alpha",
        pull_requests_merged := initial_summary.pull_requests_merged + 1,
        pr_details := initial_summary.pr_details ++
          [{ repo := "octo/alpha", title := (some "Add feature").getD "N/A",
             number := some 7, timestamp := pr_merged_event.created_at,
             action := "merged" }] } ∧
    process_event initial_summary pr_closed_unmerged_event
      = Except.ok { initial_summary with
          repos := initial_summary.repos.insert "octo/alpha" } :=
  ⟨(process_event_pr_closed_cases pr_merged_event initial_summary "octo/alpha" _
      rfl rfl rfl rfl).1 rfl,
   (process_event_pr_closed_cases pr_closed_unmerged_event initial_summary "octo/alpha" _
      rfl rfl rfl rfl).2 (by decide)⟩

/-- C5: the fetcher requests at most 10 pages with `per_page = 100`, so
whenever the transport honors the page size the result has at most 1000
events; and on a feed of 11 full within-window pages the result is exactly
the concatenation of pages 1 through 10 — page 11 is silently dropped. -/
theorem get_user_events_page_cap (feed : Nat → Nat → Option (List Event))
    (since_date : DateTime) (pages : Nat → List Event)
    (hbound : ∀ p l, feed p 100 = some l → l.length ≤ 100) :
    (get_user_events feed since_date).length ≤ 1000 ∧
    ((∀ i, 1 ≤ i → i ≤ 11 → feed i 100 = some (pages i) ∧ (pages i).length = 100 ∧
        (pages i).all (within_window since_date) = true) →
      get_user_events feed since_date = (List.range' 1 10).flatMap pages) := by
  constructor
  · exact go_length_le feed since_date hbound 10 1
  · intro hfull
    have hmain := go_full_pages feed since_date pages 10 1 10 (le_refl 10)
      (fun i h1 h2 => by
        obtain ⟨ha, hb, hc⟩ := hfull i h1 (by omega)
        refine ⟨ha, ?_, hc⟩
        intro hnil
        rw [hnil] at hb
        simp at hb)
    simpa [get_user_events, get_user_events_go] using hmain

/-- Witness for C5: the page-size bound on a concrete full feed. -/
theorem get_user_events_page_cap_witness :
    (get_user_events sample_feed_c5 sample_cutoff).length ≤ 1000 :=
  (get_user_events_page_cap sample_feed_c5 sample_cutoff
    (fun _ => List.replicate 100 new_event)
    (fun p l h => by
      simp only [sample_feed_c5, Option.some.injEq] at h
      rw [← h]
      simp)).1

/-- C6: when pages 1..k−1 are present, non-empty and fully within the
window and the request for page k fails (or returns an empty page), the
fetcher stops and returns exactly the events of pages 1..k−1; the failure
is not propagated — the fetcher still returns an ordinary list with no
error indication. -/
theorem get_user_events_transport_failure (feed : Nat → Nat → Option (List Event))
    (since_date : DateTime) (pages : Nat → List Event) (k : Nat)
    (hk1 : 1 ≤ k) (hk10 : k ≤ 10)
    (hbefore : ∀ i, 1 ≤ i → i < k → feed i 100 = some (pages i) ∧ pages i ≠ [] ∧
      (pages i).all (within_window since_date) = true)
    (hfail : feed k 100 = none ∨ feed k 100 = some []) :
    get_user_events feed since_date = (List.range' 1 (k - 1)).flatMap pages := by
  have hmain := go_full_pages feed since_date pages (k - 1) 1 10 (by omega)
    (fun i h1 h2 => hbefore i h1 (by omega))
  have hone : 1 + (k - 1) = k := by omega
  rw [get_user_events, hmain, hone]
  have hstop : get_user_events_go feed since_date k (10 - (k - 1)) = [] := by
    obtain ⟨f, hf⟩ : ∃ f, 10 - (k - 1) = f + 1 := ⟨9 - (k - 1), by omega⟩
    rw [hf]
    rcases hfail with h | h <;> simp [get_user_events_go, h]
  rw [hstop, List.append_nil]

/-- Witness for C6: a concrete feed failing at page 3 yields exactly the
events of pages 1 and 2. -/
theorem get_user_events_transport_failure_witness :
    get_user_events sample_feed_c6 sample_cutoff
      = (List.range' 1 2).flatMap (fun _ => [new_event]) :=
  get_user_events_transport_failure sample_feed_c6 sample_cutoff (fun _ => [new_event]) 3
    (by omega) (by omega)
    (fun i h1 h2 => ⟨by interval_cases i <;> decide, List.cons_ne_nil _ _,
      (by decide : ([new_event].all (within_window sample_cutoff)) = true)⟩)
    (Or.inl (by decide))

/-- C7: when the fetcher returns no events, `generate_report` returns the
single fixed no-activity message for every requested output format, never
reaching a renderer. -/
theorem generate_report_no_activity (feed : Nat → Nat → Option (List Event))
    (username : String) (start_date end_date : DateTime)
    (output_format company : String)
    (h : get_user_events feed start_date = []) :
    generate_report feed username start_date end_date output_format company
      = Except.ok "No GitHub activity found for the specified period." := by
  simp [generate_report, h]

/-- Witness for C7: a concrete all-failing feed, for the three formats. -/
theorem generate_report_no_activity_witness :
    generate_report sample_feed_empty "octocat" sample_cutoff sample_date "markdown" "Acme"
      = Except.ok "No GitHub activity found for the specified period." ∧
    generate_report sample_feed_empty "octocat" sample_cutoff sample_date "html" "Acme"
      = Except.ok "No GitHub activity found for the specified period." ∧
    generate_report sample_feed_empty "octocat" sample_cutoff sample_date "text" "Acme"
      = Except.ok "No GitHub activity found for the specified period." :=
  ⟨generate_report_no_activity sample_feed_empty "octocat" sample_cutoff sample_date
      "markdown" "Acme" rfl,
   generate_report_no_activity sample_feed_empty "octocat" sample_cutoff sample_date
      "html" "Acme" rfl,
   generate_report_no_activity sample_feed_empty "octocat" sample_cutoff sample_date
      "text" "Acme" rfl⟩

/-- C8: a push event increments the commits counter by the number of
commits in its payload and appends, in payload order, one commit detail
per commit carrying the event's repository, the first 7 characters of the
commit hash, the first line of the commit message (text after the first
line break discarded by `firstLine`), and the event's own creation
timestamp. -/
theorem process_event_push_commits (e : Event) (s : Summary) (rn : String)
    (htype : e.type = some "PushEvent")
    (hrepo : e.repo = some { name := some rn }) :
    process_event s e = Except.ok
      { s with repos := s.repos.insert rn,
               commits := s.commits + e.payload.commits.length,
               commit_details := s.commit_details ++ e.payload.commits.map (fun c =>
                 { repo := rn, sha := c.sha.take 7, message := firstLine c.message,
                   timestamp := e.created_at }) } := by
  simp [process_event, dictGet, htype, hrepo, ok_bind, pure_eq_ok, process_push_event]

/-- Witness for C8 at the concrete two-commit push event. -/
theorem process_event_push_commits_witness :
    process_event initial_summary push_event = Except.ok
      { initial_summary with
        repos := initial_summary.repos.insert "octo/alpha",
        commits := initial_summary.commits + push_event.payload.commits.length,
        commit_details := initial_summary.commit_details ++
          push_event.payload.commits.map (fun c =>
            { repo := "octo/alpha", sha := c.sha.take 7, message := firstLine c.message,
              timestamp := push_event.created_at }) } :=
  process_event_push_commits push_event initial_summary "octo/alpha" rfl rfl

/-- C9: every event that `process_event` accepts has its repository added
to the touched-repository set, whatever its type; and for an event of
unrecognized type this is the only effect — the result is the input
summary with just the repository inserted. -/
theorem process_event_records_repo (e : Event) (s : Summary) (rn : String) (t : String)
    (htype : e.type = some t)
    (hrepo : e.repo = some { name := some rn }) :
    (∀ s', process_event s e = Except.ok s' → s'.repos = s.repos.insert rn) ∧
    (t ∉ ["PushEvent", "PullRequestEvent", "PullRequestReviewEvent", "IssuesEvent"] →
      t ∉ comment_event_types →
      process_event s e = Except.ok { s with repos := s.repos.insert rn }) := by
  constructor
  · intro s' hok
    unfold process_event at hok
    rw [htype, hrepo] at hok
    simp only [dictGet, ok_bind] at hok
    split at hok
    · simp only [pure_eq_ok, Except.ok.injEq] at hok
      subst hok
      exact process_push_event_repos e rn _
    · split at hok
      · exact process_pr_event_repos e rn _ s' hok
      · split at hok
        · exact process_review_event_repos e rn _ s' hok
        · split at hok
          · exact process_issue_event_repos e rn _ s' hok
          · split at hok
            · simp only [pure_eq_ok, Except.ok.injEq] at hok
              subst hok
              rfl
            · simp only [pure_eq_ok, Except.ok.injEq] at hok
              subst hok
              rfl
  · intro hn1 hn2
    simp only [List.mem_cons, List.mem_singleton, not_or, List.not_mem_nil,
      not_false_iff, and_true] at hn1
    obtain ⟨h1, h2, h3, h4⟩ := hn1
    simp only [comment_event_types, List.mem_cons, not_or, List.not_mem_nil,
      not_false_iff, and_true] at hn2
    obtain ⟨c1, c2, c3⟩ := hn2
    simp [process_event, dictGet, htype, hrepo, ok_bind, pure_eq_ok,
      comment_event_types, h1, h2, h3, h4, c1, c2, c3]

/-- Witness for C9 at the concrete unrecognized-type event. -/
theorem process_event_records_repo_witness :
    process_event initial_summary new_event
      = Except.ok { initial_summary with
          repos := initial_summary.repos.insert "octo/alpha" } :=
  (process_event_records_repo new_event initial_summary "octo/alpha" "WatchEvent"
    rfl rfl).2 (by decide) (by decide)

/-- C10: `process_event` fails with a key-lookup error — it does not skip
the event — when `type`, `repo`, `repo.name`, the `action` of a PR or
issue event, or the `pull_request` / `issue` descriptor of a PR, review or
issue event is absent; whereas an absent `title` or `number` inside the
descriptor defaults to the literal `N/A` placeholder and the event is
processed normally. -/
theorem process_event_required_keys :
    (∀ s e, e.type = none → process_event s e = Except.error "KeyError: type") ∧
    (∀ s e t, e.type = some t → e.repo = none →
      process_event s e = Except.error "KeyError: repo") ∧
    (∀ s e t, e.type = some t → e.repo = some { name := none } →
      process_event s e = Except.error "KeyError: name") ∧
    (∀ s e rn, e.type = some "PullRequestEvent" → e.repo = some { name := some rn } →
      e.payload.action = none → process_event s e = Except.error "KeyError: action") ∧
    (∀ s e rn a, e.type = some "PullRequestEvent" → e.repo = some { name := some rn } →
      e.payload.action = some a → e.payload.pull_request = none →
      process_event s e = Except.error "KeyError: pull_request") ∧
    (∀ s e rn, e.type = some "PullRequestReviewEvent" →
      e.repo = some { name := some rn } → e.payload.pull_request = none →
      process_event s e = Except.error "KeyError: pull_request") ∧
    (∀ s e rn, e.type = some "IssuesEvent" → e.repo = some { name := some rn } →
      e.payload.action = none → process_event s e = Except.error "KeyError: action") ∧
    (∀ s e rn a, e.type = some "IssuesEvent" → e.repo = some { name := some rn } →
      e.payload.action = some a → e.payload.issue = none →
      process_event s e = Except.error "KeyError: issue") ∧
    (∀ s e rn, e.type = some "PullRequestEvent" → e.repo = some { name := some rn } →
      e.payload.action = some "opened" →
      e.payload.pull_request = some { title := none, number := none, merged := none } →
      process_event s e = Except.ok
        { s with repos := s.repos.insert rn,
                 pull_requests_opened := s.pull_requests_opened + 1,
                 pr_details := s.pr_details ++
                   [{ repo := rn, title := "N/A", number := none,
                      timestamp := e.created_at, action := "opened" }] }) ∧
    (∀ s e rn, e.type = some "IssuesEvent" → e.repo = some { name := some rn } →
      e.payload.action = some "opened" →
      e.payload.issue = some { title := none, number := none } →
      process_event s e = Except.ok
        { s with repos := s.repos.insert rn,
                 issues_opened := s.issues_opened + 1,
                 issue_details := s.issue_details ++
                   [{ repo := rn, title := "N/A", number := none,
                      timestamp := e.created_at, action := "opened" }] }) := by
  refine ⟨?_, ?_, ?_, ?_, ?_, ?_, ?_, ?_, ?_, ?_⟩
  · intro s e h1
    simp [process_event, dictGet, h1, error_bind]
  · intro s e t h1 h2
    simp [process_event, dictGet, h1, h2, ok_bind, error_bind]
  · intro s e t h1 h2
    simp [process_event, dictGet, h1, h2, ok_bind, error_bind]
  · intro s e rn h1 h2 h3
    simp [process_event, process_pr_event, dictGet, h1, h2, h3, ok_bind, error_bind]
  · intro s e rn a h1 h2 h3 h4
    simp [process_event, process_pr_event, dictGet, h1, h2, h3, h4, ok_bind, error_bind]
  · intro s e rn h1 h2 h3
    simp [process_event, process_review_event, dictGet, h1, h2, h3, ok_bind, error_bind]
  · intro s e rn h1 h2 h3
    simp [process_event, process_issue_event, dictGet, h1, h2, h3, ok_bind, error_bind]
  · intro s e rn a h1 h2 h3 h4
    simp [process_event, process_issue_event, dictGet, h1, h2, h3, h4, ok_bind, error_bind]
  · intro s e rn h1 h2 h3 h4
    simp [process_event, process_pr_event, dictGet, h1, h2, h3, h4, ok_bind, error_bind,
      pure_eq_ok, add_item_details, Summary.bump, Summary.appendDetail]
  · intro s e rn h1 h2 h3 h4
    simp [process_event, process_issue_event, dictGet, h1, h2, h3, h4, ok_bind, error_bind,
      pure_eq_ok, add_item_details, Summary.bump, Summary.appendDetail]

/-- Witness for C10 at concrete events: a missing `type`, a PR event with
a missing `action`, and an opened PR whose descriptor lacks `title` and
`number`. -/
theorem process_event_required_keys_witness :
    process_event initial_summary sample_event_no_type
      = Except.error "KeyError: type" ∧
    process_event initial_summary sample_pr_no_action
      = Except.error "KeyError: action" ∧
    process_event initial_summary sample_pr_na = Except.ok
      { initial_summary with
        repos := initial_summary.repos.insert "octo/alpha",
        pull_requests_opened := initial_summary.pull_requests_opened + 1,
        pr_details := initial_summary.pr_details ++
          [{ repo := "octo/alpha", title := "N/A", number := none,
             timestamp := sample_date, action := "opened" }] } :=
  ⟨process_event_required_keys.1 initial_summary sample_event_no_type rfl,
   process_event_required_keys.2.2.2.1 initial_summary sample_pr_no_action
     "octo/alpha" rfl rfl rfl,
   process_event_required_keys.2.2.2.2.2.2.2.2.1 initial_summary sample_pr_na
     "octo/alpha" rfl rfl rfl rfl⟩

/-- A summary whose four detail lists are all non-empty, used to refute
the claim that every renderer has detail sections. -/
def sample_full_summary : Summary :=
  { commits := 1, pull_requests_opened := 1, pull_requests_merged := 0,
    pull_requests_reviewed := 1, issues_opened := 0, issues_closed := 1, comments := 0,
    repos := ["octo/beta", "octo/alpha"],
    commit_details := [{ repo := "octo/alpha", sha := "abc1234", message := "tune cache",
                         timestamp := sample_date }],
    pr_details := [{ repo := "octo/alpha", title := "Fix bug", number := some 5,
                     timestamp := sample_date, action := "opened" }],
    issue_details := [{ repo := "octo/beta", title := "Stale", number := some 9,
                        timestamp := sample_date, action := "closed" }],
    review_details := [{ repo := "octo/alpha", pr_title := "Add docs", pr_number := some 3,
                         timestamp := sample_date }] }

/-- C3 counterexample: at a concrete window, organization label and summary
whose four detail lists are all non-empty, the plain-text and the markup
(HTML) renderers produce byte-identical documents to the ones for the same
summary with every detail list emptied — so neither document can contain a
commits, pull-requests, issues or code-reviews section derived from those
details, refuting the claim that all three renderers include such sections.
Only the structured-text (markdown) renderer has them. -/
theorem renderers_counterexample :
    format_text_report "octocat" sample_cutoff sample_date sample_full_summary "Acme"
      = format_text_report "octocat" sample_cutoff sample_date
          sample_full_summary.clearDetails "Acme" ∧
    format_html_report "octocat" sample_cutoff sample_date sample_full_summary "Acme"
      = format_html_report "octocat" sample_cutoff sample_date
          sample_full_summary.clearDetails "Acme" ∧
    sample_full_summary.commit_details.length = 1 ∧
    sample_full_summary.pr_details.length = 1 ∧
    sample_full_summary.issue_details.length = 1 ∧
    sample_full_summary.review_details.length = 1 :=
  ⟨rfl, rfl, rfl, rfl, rfl, rfl⟩

/-- C3 (amended): given the same window, summary and organization label,
the structured-text (markdown) renderer deterministically includes the
header, the executive summary of all seven counters plus the
distinct-repository count, the touched repositories sorted ascending, and
— exactly when the corresponding detail list is non-empty — a commits
section grouped by repository with repositories sorted ascending and at
most 20 commits per repository, a pull-requests section in encounter
order with action-keyed markers, an issues section in encounter order
with action-keyed markers, and a code-reviews section in encounter order;
the plain-text and markup (HTML) renderers include only the header, the
executive summary and the sorted repositories, and their output is
independent of the four detail lists. -/
theorem renderers_amended (username company : String)
    (start_date end_date : DateTime) (s : Summary) :
    (format_markdown_report_lines username start_date end_date s company
      = add_markdown_header username start_date end_date
        ++ add_markdown_summary s
        ++ add_markdown_repos s.repos
        ++ add_markdown_commits s.commit_details
        ++ add_markdown_prs s.pr_details
        ++ add_markdown_issues s.issue_details
        ++ add_markdown_reviews s.review_details
        ++ ["\n---\n", "\n*Report generated automatically for " ++ company ++ "*"]) ∧
    (add_markdown_commits s.commit_details).isEmpty = s.commit_details.isEmpty ∧
    (add_markdown_prs s.pr_details).isEmpty = s.pr_details.isEmpty ∧
    (add_markdown_issues s.issue_details).isEmpty = s.issue_details.isEmpty ∧
    (add_markdown_reviews s.review_details).isEmpty = s.review_details.isEmpty ∧
    List.Sorted (· ≤ ·) (commit_repos s.commit_details) ∧
    (∀ repo, ((commits_for_repo s.commit_details repo).take 20).length ≤ 20) ∧
    (∀ item ty m, (format_markdown_item item ty m).headD ""
      = ((m.lookup item.action).getD "•") ++ " **" ++ pyTitleCase item.action ++ "** "
        ++ ty ++ " #" ++ numStr item.number ++ ": " ++ item.title) ∧
    pr_emoji_map.lookup "opened" = some "🟢" ∧
    pr_emoji_map.lookup "merged" = some "🟣" ∧
    pr_emoji_map.lookup "closed" = none ∧
    issue_emoji_map.lookup "opened" = some "🔵" ∧
    issue_emoji_map.lookup "closed" = some "✅" ∧
    List.Sorted (· ≤ ·) (pySorted s.repos) ∧
    (format_text_report username start_date end_date s company
      = format_text_report username start_date end_date s.clearDetails company) ∧
    (format_html_report username start_date end_date s company
      = format_html_report username start_date end_date s.clearDetails company) ∧
    (format_html_report username start_date end_date s company
      = html_before_summary username start_date end_date
        ++ get_html_summary s
        ++ html_between_summary_and_repos
        ++ html_repo_items s.repos
        ++ html_after_repos company) ∧
    List.Sublist ((pySorted s.repos).map (fun repo => "  - " ++ repo))
      (format_text_report_lines username start_date end_date s company) ∧
    ("Total Commits: " ++ toString s.commits)
      ∈ format_text_report_lines username start_date end_date s company ∧
    ("Active Repositories: " ++ toString s.repos.length)
      ∈ format_text_report_lines username start_date end_date s company := by
  refine ⟨rfl, ?_, ?_, ?_, ?_, pySorted_sorted _, fun repo => List.length_take_le _ _,
    fun item ty m => rfl, by decide, by decide, by decide, by decide, by decide,
    pySorted_sorted _, rfl, rfl,
    format_html_report_decomposition username start_date end_date s company,
    text_report_repo_lines_sublist username company start_date end_date s, ?_, ?_⟩
  · by_cases h : s.commit_details.isEmpty <;> simp [add_markdown_commits, h]
  · by_cases h : s.pr_details.isEmpty <;> simp [add_markdown_prs, h]
  · by_cases h : s.issue_details.isEmpty <;> simp [add_markdown_issues, h]
  · by_cases h : s.review_details.isEmpty <;> simp [add_markdown_reviews, h]
  · simp [format_text_report_lines]
  · simp [format_text_report_lines]

end GithubReport
